import Mathlib

/-!
Shallow embedding of `src/babelStream/hip/HIPStream.cpp` (the HIP backend of a
streaming-bandwidth benchmark) and proofs about it.

Modelling conventions:
* Device arrays are total functions `Nat → T`; a kernel launch with
  `numBlocks` blocks of `TBSIZE` threads overwrites exactly the indices
  `TBSIZE * blk + tid` for `blk < numBlocks`, `tid < TBSIZE` (each thread
  computes its global index and writes there), and leaves every other index
  untouched.
* The element type `T` is kept generic over `CommRing` (the source
  instantiates the template at `float` and `double`; the claims under
  scrutiny only involve values and operations that are exact in those types,
  so exact arithmetic is the faithful model).
* The constructor `HIPStream<T>::HIPStream` is modelled as a step sequence
  producing a trace of allocation calls together with either a constructed
  result or the error it raises; `HIP_CHECK` failures (which call
  `exit(-1)`) are modelled as `StreamError.FatalHipError`, thrown
  `std::runtime_error`s as `ConfigurationError` / `ResourceExhaustedError`
  following the error taxonomy of the specification.
* `startScalar` and `dot_elements_per_lane` are declared in the header
  `HIPStream.h` / `Stream.h`, which is not part of the sources; they are
  modelled from the spec as parameters (the spec fixes only that the scalar
  is a build-time constant shared by scale/triad/nstream and that
  `elementsPerGroupMember` is a positive backend constant).
-/

/-- Work-group size, `#define TBSIZE 1024` (HIPStream.cpp line 11). -/
def TBSIZE : Nat := 1024

/-- The set of global indices written by a launch of `numBlocks` blocks of
`TBSIZE` threads: thread `(blk, tid)` computes
`i = blockDim.x * blockIdx.x + threadIdx.x = TBSIZE * blk + tid` and accesses
index `i`. -/
def isTouched (numBlocks i : Nat) : Bool :=
  decide (∃ blk ∈ Finset.range numBlocks, ∃ tid ∈ Finset.range TBSIZE,
    TBSIZE * blk + tid = i)

/-- Effect of an element-wise kernel launch on one device array: every thread
of the grid overwrites its own index with `newVal` of that index (distinct
threads write distinct indices, so the parallel execution is the pointwise
update); indices no thread computes are untouched. -/
def applyLaunch {T : Type} (numBlocks : Nat) (newVal : Nat → T) (arr : Nat → T) :
    Nat → T :=
  fun i => if isTouched numBlocks i then newVal i else arr i

/-- State of a `HIPStream<T>` instance: the members `array_size`,
`dot_num_blocks`, the three device buffers `d_a`, `d_b`, `d_c` and the
host-visible partial-sum buffer `sums` (HIPStream.h members used by
HIPStream.cpp). -/
structure HIPStream (T : Type) where
  array_size : Nat
  dot_num_blocks : Nat
  d_a : Nat → T
  d_b : Nat → T
  d_c : Nat → T
  sums : Nat → T

attribute [ext] HIPStream

variable {T : Type} [CommRing T]

/-- Kernel `init_kernel` launched over `array_size/TBSIZE` blocks (lines 84-100):
`a[i] = initA; b[i] = initB; c[i] = initC`. -/
def HIPStream.init_arrays (s : HIPStream T) (initA initB initC : T) : HIPStream T :=
  { s with
    d_a := applyLaunch (s.array_size / TBSIZE) (fun _ => initA) s.d_a
    d_b := applyLaunch (s.array_size / TBSIZE) (fun _ => initB) s.d_b
    d_c := applyLaunch (s.array_size / TBSIZE) (fun _ => initC) s.d_c }

/-- Method `read_arrays` (lines 102-120): copies the first `array_size` elements of
each device buffer back to host vectors of that length. -/
def HIPStream.read_arrays (s : HIPStream T) : List T × List T × List T :=
  ((List.range s.array_size).map s.d_a,
   (List.range s.array_size).map s.d_b,
   (List.range s.array_size).map s.d_c)

/-- Kernel `copy_kernel` launched over `array_size/TBSIZE` blocks (lines 122-135):
`c[i] = a[i]`. -/
def HIPStream.copy (s : HIPStream T) : HIPStream T :=
  { s with d_c := applyLaunch (s.array_size / TBSIZE) (fun i => s.d_a i) s.d_c }

/-- Kernel `mul_kernel` launched over `array_size/TBSIZE` blocks (lines 137-151):
`b[i] = scalar * c[i]`, with `scalar = startScalar` (a build-time constant
from the missing header, passed as a parameter). -/
def HIPStream.mul (s : HIPStream T) (startScalar : T) : HIPStream T :=
  { s with d_b := applyLaunch (s.array_size / TBSIZE) (fun i => startScalar * s.d_c i) s.d_b }

/-- Kernel `add_kernel` launched over `array_size/TBSIZE` blocks (lines 153-166):
`c[i] = a[i] + b[i]`. -/
def HIPStream.add (s : HIPStream T) : HIPStream T :=
  { s with d_c := applyLaunch (s.array_size / TBSIZE) (fun i => s.d_a i + s.d_b i) s.d_c }

/-- Kernel `triad_kernel` launched over `array_size/TBSIZE` blocks (lines 168-182):
`a[i] = b[i] + scalar * c[i]`. -/
def HIPStream.triad (s : HIPStream T) (startScalar : T) : HIPStream T :=
  { s with
    d_a := applyLaunch (s.array_size / TBSIZE)
      (fun i => s.d_b i + startScalar * s.d_c i) s.d_a }

/-- Kernel `nstream_kernel` launched over `array_size/TBSIZE` blocks (lines 184-198):
`a[i] += b[i] + scalar * c[i]`. -/
def HIPStream.nstream (s : HIPStream T) (startScalar : T) : HIPStream T :=
  { s with
    d_a := applyLaunch (s.array_size / TBSIZE)
      (fun i => s.d_a i + (s.d_b i + startScalar * s.d_c i)) s.d_a }

/-- One parallel step of the in-block tree reduction of `dot_kernel`
(lines 212-219): every lane `l < offset` simultaneously does
`tb_sum[l] += tb_sum[l + offset]` (the values read at `l + offset` are not
written in the same step, so the simultaneous update is the faithful
semantics of the `__syncthreads`-separated loop body). -/
def stepAt (tb : Nat → T) (offset : Nat) : Nat → T :=
  fun l => if l < offset then tb l + tb (l + offset) else tb l

/-- The whole tree-reduction loop of `dot_kernel` for a block of `2 ^ m`
lanes: offsets `2 ^ (m-1), ..., 2, 1` (the source loop
`for (offset = blockDim.x / 2; offset > 0; offset /= 2)` with
`blockDim.x = 2 ^ m`). -/
def reducePow : (Nat → T) → Nat → Nat → T
  | tb, 0 => tb
  | tb, m + 1 => reducePow (stepAt tb (2 ^ m)) m

/-- The grid-stride accumulation loop of one lane of `dot_kernel`
(lines 208-210): starting from global index `i`, sum `f` at
`i, i + stride, i + 2*stride, ...` while the index stays below
`array_size` (`tb_sum[local_i]` starts at `{}`, i.e. zero). -/
def gridStrideSum (f : Nat → T) (array_size stride i : Nat) : T :=
  if _h : i < array_size ∧ 0 < stride then
    f i + gridStrideSum f array_size stride (i + stride)
  else 0
termination_by array_size - i
decreasing_by
  simp_wf
  omega

/-- Value written by block `blk` of `dot_kernel` to `sum[blk]` (lines
200-223): lane `l` starts at `blockDim.x * blockIdx.x + l` and strides by
`blockDim.x * gridDim.x`; the block then tree-reduces its `TBSIZE = 2 ^ 10`
lane partial sums and lane 0 writes the result. -/
def dot_kernel_block (a b : Nat → T) (array_size gridDim blk : Nat) : T :=
  reducePow
    (fun l => gridStrideSum (fun i => a i * b i) array_size
      (TBSIZE * gridDim) (TBSIZE * blk + l))
    10 0

/-- Contents of the `sums` buffer after the `dot_kernel` launch of
`HIPStream<T>::dot`: every block `blk < gridDim` writes its tree-reduced
total to `sum[blockIdx.x]` (line 222); other entries are untouched. -/
def HIPStream.dotSums (s : HIPStream T) : Nat → T :=
  fun g =>
    if g < s.dot_num_blocks then
      dot_kernel_block s.d_a s.d_b s.array_size s.dot_num_blocks g
    else s.sums g

/-- Method `HIPStream<T>::dot` (lines 225-237): launch `dot_kernel` over
`dot_num_blocks` blocks, then sum the partial results on the host
sequentially in ascending block order starting from `T sum{}`
(`for (int i = 0; i < dot_num_blocks; i++) sum += sums[i]`). -/
def HIPStream.dot (s : HIPStream T) : T × HIPStream T :=
  ((List.range s.dot_num_blocks).foldl (fun acc g => acc + s.dotSums g) 0,
   { s with sums := s.dotSums })

/-- Device properties as far as the constructor consults them
(`hipDeviceProp_t::totalGlobalMem`). -/
structure DeviceProp where
  totalGlobalMem : Nat
deriving DecidableEq

/-- Allocation calls the constructor can issue, in source order:
`hipHostMalloc(&sums, ...)` (line 59) and the three `hipMalloc`s
(lines 68-70). -/
inductive AllocEvent
  | hostMallocSums
  | deviceMallocA
  | deviceMallocB
  | deviceMallocC
deriving DecidableEq

/-- Ways construction can fail: the two thrown `std::runtime_error`s
(classified per the spec taxonomy by their message) and a failed
`HIP_CHECK`, which prints and calls `exit(-1)`. -/
inductive StreamError
  | ConfigurationError (msg : String)
  | ResourceExhaustedError (msg : String)
  | FatalHipError
deriving DecidableEq

/-- Data a successful construction determines: the stored `array_size` and
`dot_num_blocks` members (the buffer contents start uninitialized). -/
structure CtorOk where
  array_size : Nat
  dot_num_blocks : Nat
deriving DecidableEq

/-- Recognizes a `ConfigurationError` outcome of construction. -/
def isConfigError : Except StreamError CtorOk → Bool
  | Except.error (StreamError.ConfigurationError _) => true
  | _ => false

/-- Line 49: `dot_num_blocks = (array_size + (TBSIZE * dot_elements_per_lane
- 1)) / (TBSIZE * dot_elements_per_lane)` (round up to the next multiple). -/
def dot_num_blocks_of (array_size dot_elements_per_lane : Nat) : Nat :=
  (array_size + (TBSIZE * dot_elements_per_lane - 1)) / (TBSIZE * dot_elements_per_lane)

/-- Constructor `HIPStream<T>::HIPStream(ARRAY_SIZE, device_index)` (lines 24-71), as a
step sequence recording every allocation call it issues:
1. line 29: `ARRAY_SIZE % TBSIZE != 0` throws "Array size must be a
   multiple of 1024";
2. lines 37-40: `hipGetDeviceCount` then `if (device_index >= count)` throws
   "Invalid device index" (note: only the upper bound is checked);
3. line 41: `hipSetDevice(device_index)` — fails (fatal `HIP_CHECK`) for a
   negative index;
4. line 59: `hipHostMalloc(&sums, ...)` — the first allocation call;
5. line 63: `hipGetDeviceProperties(&props, 0)` — queries device `0`;
6. line 64: if `props.totalGlobalMem < 3 * ARRAY_SIZE * sizeof(T)` throws
   "Device does not have enough memory for all 3 buffers";
7. lines 68-70: the three `hipMalloc` calls. -/
def HIPStream.construct (sizeofT : Nat) (devices : List DeviceProp)
    (ARRAY_SIZE : Nat) (device_index : Int) (dot_elements_per_lane : Nat) :
    List AllocEvent × Except StreamError CtorOk :=
  if ARRAY_SIZE % TBSIZE ≠ 0 then
    ([], Except.error (StreamError.ConfigurationError
      "Array size must be a multiple of 1024"))
  else if (devices.length : Int) ≤ device_index then
    ([], Except.error (StreamError.ConfigurationError "Invalid device index"))
  else if device_index < 0 then
    ([], Except.error StreamError.FatalHipError)
  else
    match devices with
    | [] => ([AllocEvent.hostMallocSums], Except.error StreamError.FatalHipError)
    | props :: _ =>
      if props.totalGlobalMem < 3 * ARRAY_SIZE * sizeofT then
        ([AllocEvent.hostMallocSums],
         Except.error (StreamError.ResourceExhaustedError
           "Device does not have enough memory for all 3 buffers"))
      else
        ([AllocEvent.hostMallocSums, AllocEvent.deviceMallocA,
          AllocEvent.deviceMallocB, AllocEvent.deviceMallocC],
         Except.ok ⟨ARRAY_SIZE, dot_num_blocks_of ARRAY_SIZE dot_elements_per_lane⟩)

/-- Concrete example instance used by witnesses: `N = 2048` (two blocks). -/
def exState : HIPStream ℚ :=
  ⟨2048, 2, fun _ => 0, fun _ => 0, fun _ => 0, fun _ => 0⟩

/-- Concrete example instance for the dot-product scenario: `N = 8192`,
`a ≡ 1`, `b ≡ 2`. -/
def exDotState : HIPStream ℚ :=
  ⟨8192, 2, fun _ => 1, fun _ => 2, fun _ => 0, fun _ => 0⟩

/-- Functions used by the C10 witness: they agree below 2048 and differ
above, yet the grid-stride sums coincide. -/
def wfA : Nat → ℚ := fun j => (j : ℚ)

/-- Second function for the C10 witness, equal to `wfA` below 2048 only. -/
def wfB : Nat → ℚ := fun j => if j < 2048 then (j : ℚ) else 99

/-! ### Helper lemmas about the launch model -/

/-- A launch of `nb` blocks of `TBSIZE` threads touches exactly the indices
below `nb * TBSIZE`. -/
theorem isTouched_iff (nb i : Nat) : isTouched nb i = true ↔ i < nb * TBSIZE := by
  simp only [isTouched, decide_eq_true_eq, Finset.mem_range, TBSIZE]
  constructor
  · rintro ⟨blk, hblk, tid, htid, rfl⟩
    omega
  · intro hi
    exact ⟨i / 1024, by omega, i % 1024, by omega, by omega⟩

/-- When `N` is a multiple of `TBSIZE`, the standard launch of `N / TBSIZE`
blocks overwrites every index `i < N` with the new value. -/
theorem applyLaunch_eval {nV arr : Nat → T} {N i : Nat}
    (hmod : N % TBSIZE = 0) (hi : i < N) :
    applyLaunch (N / TBSIZE) nV arr i = nV i := by
  have ht : isTouched (N / TBSIZE) i = true := by
    rw [isTouched_iff]
    simp only [TBSIZE] at hmod ⊢
    omega
  simp [applyLaunch, ht]

/-- When `N` is a multiple of `TBSIZE`, indices at or above `N` are untouched
by the standard launch. -/
theorem applyLaunch_frame {nV arr : Nat → T} {N i : Nat}
    (hmod : N % TBSIZE = 0) (hi : N ≤ i) :
    applyLaunch (N / TBSIZE) nV arr i = arr i := by
  have ht : isTouched (N / TBSIZE) i = false := by
    rw [← Bool.not_eq_true, isTouched_iff]
    simp only [TBSIZE] at hmod ⊢
    omega
  simp [applyLaunch, ht]

/-- Overwriting the same touched set with the same values twice is the same
as doing it once. -/
theorem applyLaunch_absorb (nb : Nat) (nV arr : Nat → T) :
    applyLaunch nb nV (applyLaunch nb nV arr) = applyLaunch nb nV arr := by
  funext i
  by_cases h : isTouched nb i <;> simp [applyLaunch, h]

/-- Reading back a range over a function that is constant below `N` yields a
replicated list. -/
theorem map_range_eq_replicate {N : Nat} {f : Nat → T} {v : T}
    (h : ∀ i < N, f i = v) :
    (List.range N).map f = List.replicate N v := by
  induction N with
  | zero => rfl
  | succ n ih =>
    rw [List.range_succ, List.map_append, ih (fun i hi => h i (by omega)),
      List.replicate_succ']
    simp [h n (by omega)]

/-- The sequential host accumulation loop `for (i...) sum += f i` starting
from zero equals the `Finset` sum. -/
theorem foldl_range_eq_sum (n : Nat) (f : Nat → T) :
    (List.range n).foldl (fun acc g => acc + f g) 0 = ∑ g ∈ Finset.range n, f g := by
  induction n with
  | zero => rfl
  | succ m ih =>
    rw [List.range_succ, List.foldl_append, ih, Finset.sum_range_succ]
    rfl

/-! ### The in-block tree reduction -/

/-- After the full tree-reduction loop over `2 ^ m` lanes, lane 0 holds the
sum of all `2 ^ m` initial lane values. -/
theorem reducePow_zero_eq (m : Nat) (tb : Nat → T) :
    reducePow tb m 0 = ∑ l ∈ Finset.range (2 ^ m), tb l := by
  induction m generalizing tb with
  | zero => simp [reducePow]
  | succ k ih =>
    rw [reducePow, ih]
    have hstep : ∀ l ∈ Finset.range (2 ^ k), stepAt tb (2 ^ k) l = tb l + tb (l + 2 ^ k) := by
      intro l hl
      rw [Finset.mem_range] at hl
      simp [stepAt, hl]
    rw [Finset.sum_congr rfl hstep, Finset.sum_add_distrib]
    have hsplit : ∑ l ∈ Finset.range (2 ^ (k + 1)), tb l
        = (∑ l ∈ Finset.range (2 ^ k), tb l) + ∑ l ∈ Finset.range (2 ^ k), tb (2 ^ k + l) := by
      rw [← Finset.sum_range_add]
      congr 1
      have : 2 ^ (k + 1) = 2 ^ k + 2 ^ k := by
        rw [pow_succ]
        omega
      rw [this]
    rw [hsplit]
    congr 1
    exact Finset.sum_congr rfl fun l _ => by rw [Nat.add_comm]

/-! ### The grid-stride loop -/

/-- A lane starting at `i` with positive stride sums exactly the indices
`j < array_size` with `i ≤ j` and `j ≡ i (mod stride)`. -/
theorem gridStrideSum_eq_sum_filter (f : Nat → T) (N stride : Nat) (hs : 0 < stride) :
    ∀ k i, N - i ≤ k →
      gridStrideSum f N stride i
        = ∑ j ∈ (Finset.range N).filter (fun j => i ≤ j ∧ (j - i) % stride = 0), f j := by
  intro k
  induction k with
  | zero =>
    intro i hik
    rw [gridStrideSum, dif_neg (by omega)]
    rw [Finset.filter_false_of_mem, Finset.sum_empty]
    intro j hj
    rw [Finset.mem_range] at hj
    omega
  | succ k ih =>
    intro i hik
    by_cases hi : i < N
    · rw [gridStrideSum, dif_pos ⟨hi, hs⟩, ih (i + stride) (by omega)]
      have hset : (Finset.range N).filter (fun j => i ≤ j ∧ (j - i) % stride = 0)
          = insert i ((Finset.range N).filter
              (fun j => i + stride ≤ j ∧ (j - (i + stride)) % stride = 0)) := by
        ext j
        simp only [Finset.mem_filter, Finset.mem_insert, Finset.mem_range]
        constructor
        · rintro ⟨hjN, hij, hmod⟩
          rcases Nat.eq_zero_or_pos (j - i) with hji | hji
          · left
            omega
          · right
            obtain ⟨q, hq⟩ := Nat.dvd_of_mod_eq_zero hmod
            rcases q with _ | q'
            · omega
            · have hq' : j - i = stride * q' + stride := by
                rw [hq, Nat.mul_succ]
              have hge : i + stride ≤ j := by omega
              have hsub : j - (i + stride) = stride * q' := by omega
              exact ⟨hjN, hge, by rw [hsub, Nat.mul_mod_right]⟩
        · rintro (rfl | ⟨hjN, hij, hmod⟩)
          · exact ⟨by omega, Nat.le_refl _, by simp⟩
          · refine ⟨hjN, by omega, ?_⟩
            have hrw : j - i = (j - (i + stride)) + stride := by omega
            rw [hrw, Nat.add_mod_right]
            exact hmod
      rw [hset, Finset.sum_insert]
      simp only [Finset.mem_filter, Finset.mem_range]
      omega
    · rw [gridStrideSum, dif_neg (by omega)]
      rw [Finset.filter_false_of_mem, Finset.sum_empty]
      intro j hj
      rw [Finset.mem_range] at hj
      omega

/-- The lanes of the whole grid, whose starting offsets run over
`[0, stride)`, together consume every index `i < array_size` exactly once:
their partial sums add up to the full sum. -/
theorem sum_gridStride_partition (f : Nat → T) (N stride : Nat) (hs : 0 < stride) :
    ∑ r ∈ Finset.range stride, gridStrideSum f N stride r = ∑ i ∈ Finset.range N, f i := by
  have hchar : ∀ r ∈ Finset.range stride,
      gridStrideSum f N stride r
        = ∑ j ∈ (Finset.range N).filter (fun j => j % stride = r), f j := by
    intro r hr
    rw [Finset.mem_range] at hr
    rw [gridStrideSum_eq_sum_filter f N stride hs (N - r) r (Nat.le_refl _)]
    congr 1
    ext j
    simp only [Finset.mem_filter, Finset.mem_range, and_congr_right_iff]
    intro _
    constructor
    · rintro ⟨hrj, hmod⟩
      obtain ⟨q, hq⟩ := Nat.dvd_of_mod_eq_zero hmod
      have hj : j = r + stride * q := by omega
      rw [hj, Nat.add_mul_mod_self_left, Nat.mod_eq_of_lt hr]
    · intro hmod
      have hle : j % stride ≤ j := Nat.mod_le j stride
      have hdm := Nat.div_add_mod j stride
      refine ⟨by omega, ?_⟩
      have hsub : j - r = stride * (j / stride) := by omega
      rw [hsub, Nat.mul_mod_right]
  rw [Finset.sum_congr rfl hchar]
  exact Finset.sum_fiberwise_of_maps_to
    (fun j _ => Finset.mem_range.mpr (Nat.mod_lt j hs)) f

/-- With a zero stride the loop guard fails immediately (the launch never
has a zero-size grid, but the model is total). -/
theorem gridStrideSum_stride_zero (f : Nat → T) (N i : Nat) :
    gridStrideSum f N 0 i = 0 := by
  rw [gridStrideSum]
  simp

/-- The grid-stride loop never reads an index at or above `array_size`: its
value only depends on the summand function below `array_size`. -/
theorem gridStrideSum_congr (f g : Nat → T) (N stride i : Nat)
    (hfg : ∀ j < N, f j = g j) :
    gridStrideSum f N stride i = gridStrideSum g N stride i := by
  rcases Nat.eq_zero_or_pos stride with hz | hs
  · rw [hz, gridStrideSum_stride_zero, gridStrideSum_stride_zero]
  · rw [gridStrideSum_eq_sum_filter f N stride hs (N - i) i (Nat.le_refl _),
      gridStrideSum_eq_sum_filter g N stride hs (N - i) i (Nat.le_refl _)]
    refine Finset.sum_congr rfl ?_
    intro j hj
    rw [Finset.mem_filter, Finset.mem_range] at hj
    exact hfg j hj.1

/-- Splitting a range sum of `n * k` terms into `n` consecutive chunks of
`k`. -/
theorem sum_range_mul_chunks (n k : Nat) (h : Nat → T) :
    ∑ r ∈ Finset.range (n * k), h r
      = ∑ g ∈ Finset.range n, ∑ l ∈ Finset.range k, h (k * g + l) := by
  induction n with
  | zero => simp
  | succ m ih =>
    have hmul : (m + 1) * k = m * k + k := by ring
    rw [hmul, Finset.sum_range_add, ih, Finset.sum_range_succ]
    congr 1
    exact Finset.sum_congr rfl fun l _ => by rw [Nat.mul_comm m k]

/-! ### Assembled semantics of the dot operation -/

/-- The returned dot value is the exact sum of `a[i] * b[i]` over all
`i < array_size`, for any positive number of work groups: the grid-stride
partition consumes every index exactly once and the tree reduction plus the
host loop add all partial sums. -/
theorem dot_fst_eq (s : HIPStream T) (hG : 1 ≤ s.dot_num_blocks) :
    (HIPStream.dot s).1 = ∑ i ∈ Finset.range s.array_size, s.d_a i * s.d_b i := by
  show (List.range s.dot_num_blocks).foldl (fun acc g => acc + s.dotSums g) 0 = _
  rw [foldl_range_eq_sum]
  have hsums : ∀ g ∈ Finset.range s.dot_num_blocks,
      s.dotSums g = dot_kernel_block s.d_a s.d_b s.array_size s.dot_num_blocks g := by
    intro g hg
    rw [Finset.mem_range] at hg
    simp [HIPStream.dotSums, hg]
  rw [Finset.sum_congr rfl hsums]
  have hblock : ∀ g ∈ Finset.range s.dot_num_blocks,
      dot_kernel_block s.d_a s.d_b s.array_size s.dot_num_blocks g
        = ∑ l ∈ Finset.range TBSIZE,
            gridStrideSum (fun i => s.d_a i * s.d_b i) s.array_size
              (TBSIZE * s.dot_num_blocks) (TBSIZE * g + l) := by
    intro g _
    rw [dot_kernel_block, reducePow_zero_eq]
    norm_num [TBSIZE]
  rw [Finset.sum_congr rfl hblock]
  have hchunk := sum_range_mul_chunks s.dot_num_blocks TBSIZE
    (fun r => gridStrideSum (fun i => s.d_a i * s.d_b i) s.array_size
      (TBSIZE * s.dot_num_blocks) r)
  simp only at hchunk
  rw [← hchunk, Nat.mul_comm s.dot_num_blocks TBSIZE,
    sum_gridStride_partition (fun i => s.d_a i * s.d_b i) s.array_size
      (TBSIZE * s.dot_num_blocks) (by simp only [TBSIZE]; omega)]

/-! ### Idempotence of triad -/

/-- Running triad twice in a row is the same as running it once: the second
launch overwrites `a` with values computed from the unchanged `b` and `c`. -/
theorem triad_triad (s : HIPStream T) (scalar : T) :
    (s.triad scalar).triad scalar = s.triad scalar := by
  show ({ s with
      d_a := applyLaunch (s.array_size / TBSIZE)
        (fun i => s.d_b i + scalar * s.d_c i)
        (applyLaunch (s.array_size / TBSIZE)
          (fun i => s.d_b i + scalar * s.d_c i) s.d_a) } : HIPStream T) = _
  rw [applyLaunch_absorb]
  rfl

/-- Iterating triad `R ≥ 1` times equals running it once. -/
theorem triad_iterate (s : HIPStream T) (scalar : T) (R : Nat) (hR : 1 ≤ R) :
    (fun st => HIPStream.triad st scalar)^[R] s = s.triad scalar := by
  induction R with
  | zero => omega
  | succ n ih =>
    rcases Nat.eq_zero_or_pos n with rfl | hn
    · rw [Function.iterate_one]
    · rw [Function.iterate_succ_apply', ih hn]
      exact triad_triad s scalar

/-! ### Claim theorems -/

/-- Claim C6: every kernel except Dot-product mutates only its target array
of the Array Triple — Copy writes only `c`, Scale (mul) only `b`, Add only
`c`, Triad and Extended-Triad (nstream) only `a` — and Dot-product leaves
`a`, `b` and `c` all unchanged (it writes only the partial-sum buffer). -/
theorem c6_kernel_frame_effects (s : HIPStream T) (startScalar : T) :
    ((s.copy).d_a = s.d_a ∧ (s.copy).d_b = s.d_b ∧ (s.copy).sums = s.sums
      ∧ (s.copy).array_size = s.array_size)
    ∧ ((s.mul startScalar).d_a = s.d_a ∧ (s.mul startScalar).d_c = s.d_c
      ∧ (s.mul startScalar).sums = s.sums
      ∧ (s.mul startScalar).array_size = s.array_size)
    ∧ ((s.add).d_a = s.d_a ∧ (s.add).d_b = s.d_b ∧ (s.add).sums = s.sums
      ∧ (s.add).array_size = s.array_size)
    ∧ ((s.triad startScalar).d_b = s.d_b ∧ (s.triad startScalar).d_c = s.d_c
      ∧ (s.triad startScalar).sums = s.sums
      ∧ (s.triad startScalar).array_size = s.array_size)
    ∧ ((s.nstream startScalar).d_b = s.d_b ∧ (s.nstream startScalar).d_c = s.d_c
      ∧ (s.nstream startScalar).sums = s.sums
      ∧ (s.nstream startScalar).array_size = s.array_size)
    ∧ ((s.dot).2.d_a = s.d_a ∧ (s.dot).2.d_b = s.d_b ∧ (s.dot).2.d_c = s.d_c
      ∧ (s.dot).2.array_size = s.array_size) :=
  ⟨⟨rfl, rfl, rfl, rfl⟩, ⟨rfl, rfl, rfl, rfl⟩, ⟨rfl, rfl, rfl, rfl⟩,
   ⟨rfl, rfl, rfl, rfl⟩, ⟨rfl, rfl, rfl, rfl⟩, ⟨rfl, rfl, rfl, rfl⟩⟩

/-- Claim C7: constructing with `N` not a multiple of the work-group size
fails with `ConfigurationError`, and no memory at all (host or device) is
allocated — the check is the very first statement of the constructor. -/
theorem c7_array_size_config_error (sizeofT : Nat) (devices : List DeviceProp)
    (N : Nat) (idx : Int) (epl : Nat) (h : N % TBSIZE ≠ 0) :
    HIPStream.construct sizeofT devices N idx epl
      = ([], Except.error (StreamError.ConfigurationError
          "Array size must be a multiple of 1024")) := by
  unfold HIPStream.construct
  rw [if_pos h]

/-- Witness for C7 at a concrete invalid size `N = 1000`. -/
theorem c7_witness :
    (1000 % TBSIZE ≠ 0)
    ∧ HIPStream.construct 4 [⟨1000000000⟩] 1000 0 4
      = ([], Except.error (StreamError.ConfigurationError
          "Array size must be a multiple of 1024")) :=
  ⟨by decide, c7_array_size_config_error 4 [⟨1000000000⟩] 1000 0 4 (by decide)⟩

/-- Counterexample to claim C8 as stated: with one device present, the
negative device index `-1` does not produce a `ConfigurationError` — the
constructor's check `device_index >= count` passes it, and construction
instead dies fatally inside `hipSetDevice` (a `HIP_CHECK` exit). -/
theorem c8_counterexample :
    (HIPStream.construct 4 [⟨1000000000⟩] 1024 (-1) 4).2
      = Except.error StreamError.FatalHipError
    ∧ isConfigError (HIPStream.construct 4 [⟨1000000000⟩] 1024 (-1) 4).2 = false :=
  ⟨rfl, rfl⟩

/-- Claim C8 amended: construction fails with `ConfigurationError` exactly
for device indices at or above `deviceCount`; a negative index slips past
the check (the code only tests the upper bound) and instead fails fatally
when the device is made active. -/
theorem c8_amended_device_index (sizeofT : Nat) (devices : List DeviceProp)
    (N : Nat) (idx : Int) (epl : Nat) (hN : N % TBSIZE = 0) :
    ((devices.length : Int) ≤ idx →
      HIPStream.construct sizeofT devices N idx epl
        = ([], Except.error (StreamError.ConfigurationError "Invalid device index")))
    ∧ (idx < 0 →
      HIPStream.construct sizeofT devices N idx epl
        = ([], Except.error StreamError.FatalHipError)) := by
  constructor
  · intro hle
    unfold HIPStream.construct
    rw [if_neg (by omega), if_pos hle]
  · intro hneg
    unfold HIPStream.construct
    rw [if_neg (by omega), if_neg (by omega), if_pos hneg]

/-- Witness for amended C8: index 5 with one device is a
`ConfigurationError`; index -2 is a fatal device-set failure. -/
theorem c8_witness :
    (1024 % TBSIZE = 0)
    ∧ HIPStream.construct 4 [⟨7⟩] 1024 5 4
      = ([], Except.error (StreamError.ConfigurationError "Invalid device index"))
    ∧ HIPStream.construct 4 [⟨7⟩] 1024 (-2) 4
      = ([], Except.error StreamError.FatalHipError) :=
  ⟨by decide,
   (c8_amended_device_index 4 [⟨7⟩] 1024 5 4 (by decide)).1 (by decide),
   (c8_amended_device_index 4 [⟨7⟩] 1024 (-2) 4 (by decide)).2 (by decide)⟩

/-- Counterexample to claim C1 as stated: with a device whose memory is too
small, construction does fail with `ResourceExhaustedError`, but an
allocation call IS attempted before the failure — the auxiliary host
partial-sum buffer (`hipHostMalloc`, line 59) is allocated before the
capacity check (lines 62-65). -/
theorem c1_counterexample :
    (HIPStream.construct 4 [⟨100⟩] 1024 0 4).2
      = Except.error (StreamError.ResourceExhaustedError
          "Device does not have enough memory for all 3 buffers")
    ∧ AllocEvent.hostMallocSums ∈ (HIPStream.construct 4 [⟨100⟩] 1024 0 4).1 :=
  ⟨rfl, by decide⟩

/-- Claim C1 amended: when `3 * N * sizeof(T)` exceeds the checked device's
total memory (and the other constructor preconditions hold), construction
fails with `ResourceExhaustedError` and neither device buffer is allocated,
but the auxiliary host partial-sum buffer allocation is attempted before
the capacity check. -/
theorem c1_amended_memcheck (sizeofT : Nat) (d0 : DeviceProp)
    (rest : List DeviceProp) (N : Nat) (idx : Int) (epl : Nat)
    (hN : N % TBSIZE = 0) (h0 : 0 ≤ idx)
    (hlt : idx < ((d0 :: rest).length : Int))
    (hmem : d0.totalGlobalMem < 3 * N * sizeofT) :
    HIPStream.construct sizeofT (d0 :: rest) N idx epl
      = ([AllocEvent.hostMallocSums],
         Except.error (StreamError.ResourceExhaustedError
           "Device does not have enough memory for all 3 buffers")) := by
  unfold HIPStream.construct
  rw [if_neg (by omega), if_neg (by omega), if_neg (by omega)]
  exact if_pos hmem

/-- Witness for amended C1: one device with 100 bytes of memory cannot hold
`3 * 1024 * 4` bytes. -/
theorem c1_witness :
    (1024 % TBSIZE = 0) ∧ ((0 : Int) ≤ 0)
    ∧ ((0 : Int) < (([(⟨100⟩ : DeviceProp)]).length : Int))
    ∧ (100 < 3 * 1024 * 4)
    ∧ HIPStream.construct 4 [⟨100⟩] 1024 0 4
      = ([AllocEvent.hostMallocSums],
         Except.error (StreamError.ResourceExhaustedError
           "Device does not have enough memory for all 3 buffers")) :=
  ⟨by decide, by decide, by decide, by decide,
   c1_amended_memcheck 4 ⟨100⟩ [] 1024 0 4 (by decide) (by decide) (by decide) (by decide)⟩

/-- Claim C2 is violated by the code (code bug): the capacity check queries
`hipGetDeviceProperties(&props, 0)` — device `0` — instead of the selected
`device_index`. Concretely: two devices, device 0 huge and device 1 with
only 1 byte; constructing on device index 1 with `3 * 1024 * 8` bytes
needed succeeds even though the selected device is far too small. -/
theorem c2_memcheck_queries_device_zero :
    (([(⟨1000000000000⟩ : DeviceProp), ⟨1⟩].getD 1 ⟨0⟩).totalGlobalMem = 1)
    ∧ ((1 : Nat) < 3 * 1024 * 8)
    ∧ (HIPStream.construct 8 [⟨1000000000000⟩, ⟨1⟩] 1024 1 4).2
        = Except.ok ⟨1024, 1⟩ :=
  ⟨rfl, by norm_num, rfl⟩

/-- Claim C9: for every valid `N` (multiple of the group size) and any
element type and constants, Initialize followed immediately by readBack
returns three arrays every element of which equals the supplied constant. -/
theorem c9_init_then_readback (s : HIPStream T) (initA initB initC : T)
    (h : s.array_size % TBSIZE = 0) :
    (s.init_arrays initA initB initC).read_arrays
      = (List.replicate s.array_size initA,
         List.replicate s.array_size initB,
         List.replicate s.array_size initC) := by
  show ((List.range s.array_size).map
          (applyLaunch (s.array_size / TBSIZE) (fun _ => initA) s.d_a),
        (List.range s.array_size).map
          (applyLaunch (s.array_size / TBSIZE) (fun _ => initB) s.d_b),
        (List.range s.array_size).map
          (applyLaunch (s.array_size / TBSIZE) (fun _ => initC) s.d_c)) = _
  rw [map_range_eq_replicate (fun i hi => applyLaunch_eval h hi),
    map_range_eq_replicate (fun i hi => applyLaunch_eval h hi),
    map_range_eq_replicate (fun i hi => applyLaunch_eval h hi)]

/-- Witness for C9 at `N = 2048` over `ℚ` with constants 1, 2, 3. -/
theorem c9_witness :
    (exState.array_size % TBSIZE = 0)
    ∧ (exState.init_arrays (1 : ℚ) 2 3).read_arrays
      = (List.replicate 2048 (1 : ℚ), List.replicate 2048 (2 : ℚ),
         List.replicate 2048 (3 : ℚ)) :=
  ⟨by decide, c9_init_then_readback exState 1 2 3 (by decide)⟩

/-- Claim C4: Extended-Triad (nstream) is read-modify-write on `a`: from
`Initialize(1, 1, 1)` with scalar 1, one invocation makes every element of
`a` equal 3 and a second invocation makes it 5, while `b` and `c` are
unchanged by both invocations. -/
theorem c4_nstream_read_modify_write (s : HIPStream T)
    (h : s.array_size % TBSIZE = 0) :
    ((List.range s.array_size).map (((s.init_arrays 1 1 1).nstream 1).d_a)
      = List.replicate s.array_size 3)
    ∧ ((List.range s.array_size).map
        ((((s.init_arrays 1 1 1).nstream 1).nstream 1).d_a)
      = List.replicate s.array_size 5)
    ∧ ((s.init_arrays 1 1 1).nstream 1).d_b = (s.init_arrays 1 1 1).d_b
    ∧ ((s.init_arrays 1 1 1).nstream 1).d_c = (s.init_arrays 1 1 1).d_c
    ∧ (((s.init_arrays 1 1 1).nstream 1).nstream 1).d_b
      = ((s.init_arrays 1 1 1).nstream 1).d_b
    ∧ (((s.init_arrays 1 1 1).nstream 1).nstream 1).d_c
      = ((s.init_arrays 1 1 1).nstream 1).d_c := by
  have ha0 : ∀ i < s.array_size, (s.init_arrays 1 1 1).d_a i = 1 := by
    intro i hi
    show applyLaunch (s.array_size / TBSIZE) (fun _ => (1 : T)) s.d_a i = 1
    exact applyLaunch_eval h hi
  have hb0 : ∀ i < s.array_size, (s.init_arrays 1 1 1).d_b i = 1 := by
    intro i hi
    show applyLaunch (s.array_size / TBSIZE) (fun _ => (1 : T)) s.d_b i = 1
    exact applyLaunch_eval h hi
  have hc0 : ∀ i < s.array_size, (s.init_arrays 1 1 1).d_c i = 1 := by
    intro i hi
    show applyLaunch (s.array_size / TBSIZE) (fun _ => (1 : T)) s.d_c i = 1
    exact applyLaunch_eval h hi
  have ha1 : ∀ i < s.array_size, ((s.init_arrays 1 1 1).nstream 1).d_a i = 3 := by
    intro i hi
    have hstep : ((s.init_arrays 1 1 1).nstream 1).d_a i
        = (s.init_arrays 1 1 1).d_a i
          + ((s.init_arrays 1 1 1).d_b i + 1 * (s.init_arrays 1 1 1).d_c i) := by
      show applyLaunch (s.array_size / TBSIZE)
        (fun j => (s.init_arrays 1 1 1).d_a j
          + ((s.init_arrays 1 1 1).d_b j + 1 * (s.init_arrays 1 1 1).d_c j))
        ((s.init_arrays 1 1 1).d_a) i = _
      exact applyLaunch_eval h hi
    rw [hstep, ha0 i hi, hb0 i hi, hc0 i hi]
    norm_num
  have ha2 : ∀ i < s.array_size,
      (((s.init_arrays 1 1 1).nstream 1).nstream 1).d_a i = 5 := by
    intro i hi
    have hstep : (((s.init_arrays 1 1 1).nstream 1).nstream 1).d_a i
        = ((s.init_arrays 1 1 1).nstream 1).d_a i
          + (((s.init_arrays 1 1 1).nstream 1).d_b i
            + 1 * ((s.init_arrays 1 1 1).nstream 1).d_c i) := by
      show applyLaunch (s.array_size / TBSIZE)
        (fun j => ((s.init_arrays 1 1 1).nstream 1).d_a j
          + (((s.init_arrays 1 1 1).nstream 1).d_b j
            + 1 * ((s.init_arrays 1 1 1).nstream 1).d_c j))
        (((s.init_arrays 1 1 1).nstream 1).d_a) i = _
      exact applyLaunch_eval h hi
    have hb1 : ((s.init_arrays 1 1 1).nstream 1).d_b i = 1 := hb0 i hi
    have hc1 : ((s.init_arrays 1 1 1).nstream 1).d_c i = 1 := hc0 i hi
    rw [hstep, ha1 i hi, hb1, hc1]
    norm_num
  exact ⟨map_range_eq_replicate ha1, map_range_eq_replicate ha2,
    rfl, rfl, rfl, rfl⟩

/-- Witness for C4 at `N = 2048` over `ℚ`. -/
theorem c4_witness :
    (exState.array_size % TBSIZE = 0)
    ∧ ((List.range 2048).map (((exState.init_arrays 1 1 1).nstream 1).d_a)
      = List.replicate 2048 (3 : ℚ))
    ∧ ((List.range 2048).map
        ((((exState.init_arrays 1 1 1).nstream 1).nstream 1).d_a)
      = List.replicate 2048 (5 : ℚ)) :=
  ⟨by decide,
   (c4_nstream_read_modify_write exState (by decide)).1,
   (c4_nstream_read_modify_write exState (by decide)).2.1⟩

/-- Claim C5: Triad is stable under repetition. From `Initialize(0, 2, 3)`
with scalar 2.5, one Triad invocation makes every element of `a` equal
`2 + 2.5 * 3 = 9.5`; Triad leaves `b` and `c` untouched, so iterating it
`R ≥ 1` times gives exactly the same state as running it once. -/
theorem c5_triad_repetition_stable (s : HIPStream ℚ) (R : Nat) (hR : 1 ≤ R)
    (h : s.array_size % TBSIZE = 0) :
    ((fun st => HIPStream.triad st (2.5 : ℚ))^[R] (s.init_arrays 0 2 3)
      = (s.init_arrays 0 2 3).triad 2.5)
    ∧ ((List.range s.array_size).map (((s.init_arrays 0 2 3).triad 2.5).d_a)
      = List.replicate s.array_size (9.5 : ℚ))
    ∧ ((s.init_arrays 0 2 3).triad 2.5).d_b = (s.init_arrays 0 2 3).d_b
    ∧ ((s.init_arrays 0 2 3).triad 2.5).d_c = (s.init_arrays 0 2 3).d_c := by
  refine ⟨triad_iterate _ _ R hR, ?_, rfl, rfl⟩
  apply map_range_eq_replicate
  intro i hi
  have hstep : ((s.init_arrays 0 2 3).triad 2.5).d_a i
      = (s.init_arrays 0 2 3).d_b i + 2.5 * (s.init_arrays 0 2 3).d_c i := by
    show applyLaunch (s.array_size / TBSIZE)
      (fun j => (s.init_arrays 0 2 3).d_b j + 2.5 * (s.init_arrays 0 2 3).d_c j)
      ((s.init_arrays 0 2 3).d_a) i = _
    exact applyLaunch_eval h hi
  have hbv : (s.init_arrays 0 2 3).d_b i = 2 := by
    show applyLaunch (s.array_size / TBSIZE) (fun _ => (2 : ℚ)) s.d_b i = 2
    exact applyLaunch_eval h hi
  have hcv : (s.init_arrays 0 2 3).d_c i = 3 := by
    show applyLaunch (s.array_size / TBSIZE) (fun _ => (3 : ℚ)) s.d_c i = 3
    exact applyLaunch_eval h hi
  rw [hstep, hbv, hcv]
  norm_num

/-- Witness for C5 at `N = 2048`, `R = 3`. -/
theorem c5_witness :
    (1 ≤ 3) ∧ (exState.array_size % TBSIZE = 0)
    ∧ ((fun st => HIPStream.triad st (2.5 : ℚ))^[3] (exState.init_arrays 0 2 3)
      = (exState.init_arrays 0 2 3).triad 2.5)
    ∧ ((List.range 2048).map (((exState.init_arrays 0 2 3).triad 2.5).d_a)
      = List.replicate 2048 (9.5 : ℚ)) :=
  ⟨by decide, by decide,
   (c5_triad_repetition_stable exState 3 (by decide) (by decide)).1,
   (c5_triad_repetition_stable exState 3 (by decide) (by decide)).2.1⟩

/-- Claim C3: the Dot-product consumes every element index in
`[0, array_size)` exactly once for any positive number of work groups
(grid-striding when the array exceeds the grid), so its result is the exact
full sum of `a[i] * b[i]`; on `a ≡ 1`, `b ≡ 2` with `N = 8192` it returns
exactly `2 × N`, independent of the group count. -/
theorem c3_dot_reduction_exact (s : HIPStream T) (hG : 1 ≤ s.dot_num_blocks) :
    (HIPStream.dot s).1 = ∑ i ∈ Finset.range s.array_size, s.d_a i * s.d_b i
    ∧ (s.array_size = 8192 → (∀ i, s.d_a i = 1) → (∀ i, s.d_b i = 2) →
        (HIPStream.dot s).1 = 2 * 8192) := by
  refine ⟨dot_fst_eq s hG, ?_⟩
  intro hN ha hb
  rw [dot_fst_eq s hG, hN]
  have hconst : ∀ i ∈ Finset.range 8192, s.d_a i * s.d_b i = 2 := by
    intro i _
    rw [ha i, hb i]
    norm_num
  rw [Finset.sum_congr rfl hconst, Finset.sum_const, Finset.card_range,
    nsmul_eq_mul]
  norm_num

/-- Witness for C3: the `N = 8192`, `a ≡ 1`, `b ≡ 2` instance with 2 work
groups returns exactly `2 * 8192`. -/
theorem c3_witness :
    (1 ≤ exDotState.dot_num_blocks) ∧ (HIPStream.dot exDotState).1 = 2 * 8192 :=
  ⟨by decide,
   (c3_dot_reduction_exact exDotState (by decide)).2 rfl (fun _ => rfl) (fun _ => rfl)⟩

/-- Claim C10: with `N` a multiple of the work-group size 1024, the
element-wise launches of `N / 1024` groups touch exactly the indices of
`[0, N)` (the thread-to-index map is injective, so each exactly once), and
the dot kernel's grid-stride loop never consumes an index at or above `N`
(its value depends only on the summand below `N`). -/
theorem c10_index_bounds (N : Nat) (hN : N % TBSIZE = 0)
    (blk1 tid1 blk2 tid2 : Nat) (h1 : tid1 < TBSIZE) (h2 : tid2 < TBSIZE)
    (f g : Nat → T) (stride i0 : Nat) (hfg : ∀ j < N, f j = g j) :
    (∀ i, isTouched (N / TBSIZE) i = true ↔ i < N)
    ∧ (TBSIZE * blk1 + tid1 = TBSIZE * blk2 + tid2 → blk1 = blk2 ∧ tid1 = tid2)
    ∧ gridStrideSum f N stride i0 = gridStrideSum g N stride i0 := by
  refine ⟨?_, ?_, gridStrideSum_congr f g N stride i0 hfg⟩
  · have hmul : N / TBSIZE * TBSIZE = N := by
      simp only [TBSIZE] at hN ⊢
      omega
    intro i
    rw [isTouched_iff, hmul]
  · intro heq
    simp only [TBSIZE] at h1 h2 heq
    omega

/-- Witness for C10 at `N = 2048`. -/
theorem c10_witness :
    (2048 % TBSIZE = 0) ∧ (5 < TBSIZE) ∧ (7 < TBSIZE)
    ∧ (isTouched (2048 / TBSIZE) 100 = true ↔ 100 < 2048)
    ∧ (3 = 3 ∧ 5 = 5)
    ∧ gridStrideSum wfA 2048 1024 3 = gridStrideSum wfB 2048 1024 3 :=
  ⟨by decide, by decide, by decide,
   (c10_index_bounds 2048 (by decide) 3 5 3 5 (by decide) (by decide) wfA wfB 1024 3
     (fun j hj => by simp [wfA, wfB, hj])).1 100,
   (c10_index_bounds 2048 (by decide) 3 5 3 5 (by decide) (by decide) wfA wfB 1024 3
     (fun j hj => by simp [wfA, wfB, hj])).2.1 rfl,
   (c10_index_bounds 2048 (by decide) 3 5 3 5 (by decide) (by decide) wfA wfB 1024 3
     (fun j hj => by simp [wfA, wfB, hj])).2.2⟩
